import Mathlib

/-!
Verification of the metadata-normalization and tagging core of the
youtube-to-mp3 repository (`youtube_to_mp3_yt_dlp.py`):

* `extract_metadata_from_info`  (the Tag Schema Mapper, lines 394-489)
* `download_thumbnail`'s content-type resolution (the Thumbnail Fetcher,
  lines 512-521)
* `apply_metadata_to_mp3`       (the Tag Writer, lines 537-629)

The Python functions are shallowly embedded: dictionaries with optional
keys become structures with `Option` fields, Python floats become `ℚ`
(every concrete input used below is exactly representable in binary
floating point, so the rational and floating-point evaluations agree),
fallible code returns `Except`, and CPython library behaviour that the
code relies on (`datetime.strptime` with format `%Y%m%d`, `str.lower`,
f-string thousands grouping) is reproduced from its documented
semantics.
-/

/-! ### Python string primitives

Strings are handled through their character lists so that every proof
reduces by computation.  Python string slicing, `len`, containment and
`str.endswith` operate on code points, exactly as `List Char` does.
-/

/-- Python `s[:n]`: the first `n` code points of `s`. -/
def pySlice (s : String) (n : Nat) : String :=
  String.mk (s.data.take n)

/-- `needle` occurs at the start of `hay` (both as char lists). -/
def takeEq : List Char → List Char → Bool
  | [], _ => true
  | _ :: _, [] => false
  | a :: as, b :: bs => a = b && takeEq as bs

/-- `needle` occurs somewhere in `hay`; Python's `needle in hay`.
The empty needle is found in every string, as in Python. -/
def hasSub (needle : List Char) : List Char → Bool
  | [] => takeEq needle []
  | c :: rest => takeEq needle (c :: rest) || hasSub needle rest

/-- Python `needle in hay` on strings. -/
def strContains (hay needle : String) : Bool :=
  hasSub needle.data hay.data

/-- Python `s.endswith(suffix)`. -/
def strEndsWith (s suffix : String) : Bool :=
  takeEq suffix.data.reverse s.data.reverse

/-- Python `s.lower()`.  `Char.toLower` lowers the ASCII range; the
keyword set searched by the mapper is all-ASCII, so this agrees with
CPython on every input exercised here. -/
def lowerStr (s : String) : String :=
  String.mk (s.data.map Char.toLower)

/-! ### Python numeric primitives -/

/-- Python `int()` applied to a real (float) value: truncation toward
zero. -/
def pyInt (q : ℚ) : Int :=
  if 0 ≤ q then ⌊q⌋ else ⌈q⌉

/-- Modelled from the spec: `round(x)` as the spec's words use it,
i.e. rounding to the nearest integer (half rounds up).  Python's
built-in `round` rounds halves to even, but no input below sits on a
half, so the two agree on every input used. -/
def roundSpec (q : ℚ) : Int :=
  ⌊q + 1 / 2⌋

/-- Groups of three digits, working over a reversed digit list. -/
def chunk3 : List Char → List (List Char)
  | [] => []
  | a :: b :: c :: rest => [a, b, c] :: chunk3 rest
  | xs => [xs]

/-- Python `f"{n:,}"`: decimal rendering with `","` thousands
separators (locale-independent). -/
def commaFmt (n : Int) : String :=
  let ds := (Nat.repr n.natAbs).data.reverse
  let grouped := (List.intercalate [','] (chunk3 ds)).reverse
  if n < 0 then String.mk ('-' :: grouped) else String.mk grouped

/-- Python `" | ".join`-style joining. -/
def sepJoin (sep : String) : List String → String
  | [] => ""
  | [x] => x
  | x :: y :: xs => x ++ sep ++ sepJoin sep (y :: xs)

/-! ### `datetime.strptime(upload_date, '%Y%m%d')`

CPython's `_strptime` compiles the format to the regex
`(?P<Y>\d\d\d\d)(?P<m>1[0-2]|0[1-9]|[1-9])(?P<d>3[01]|[12]\d|0[1-9]|[1-9])`,
requires the regex to consume the whole input, and then builds a
`datetime`, which validates the calendar date (and raises for year 0).
The alternation order matters: it is reproduced below, with the
regex's backtracking realised as an ordered candidate search.
-/

/-- Decimal value of a digit character. -/
def digitVal (c : Char) : Nat := c.toNat - 48

/-- The `%Y` pattern: exactly four digits. -/
def yearCand (cs : List Char) : Option (Nat × List Char) :=
  match cs with
  | a :: b :: c :: d :: rest =>
    if a.isDigit && b.isDigit && c.isDigit && d.isDigit then
      some (digitVal a * 1000 + digitVal b * 100 + digitVal c * 10 + digitVal d, rest)
    else none
  | _ => none

/-- The `%m` pattern `1[0-2]|0[1-9]|[1-9]`: all matches, in the
regex's preference order. -/
def monthCands (cs : List Char) : List (Nat × List Char) :=
  (match cs with
   | '1' :: c :: rest => if '0' ≤ c && c ≤ '2' then [(10 + digitVal c, rest)] else []
   | _ => []) ++
  (match cs with
   | '0' :: c :: rest => if '1' ≤ c && c ≤ '9' then [(digitVal c, rest)] else []
   | _ => []) ++
  (match cs with
   | c :: rest => if '1' ≤ c && c ≤ '9' then [(digitVal c, rest)] else []
   | _ => [])

/-- The `%d` pattern `3[01]|[12]\d|0[1-9]|[1-9]`: all matches, in the
regex's preference order. -/
def dayCands (cs : List Char) : List (Nat × List Char) :=
  (match cs with
   | '3' :: c :: rest => if c = '0' || c = '1' then [(30 + digitVal c, rest)] else []
   | _ => []) ++
  (match cs with
   | c :: d :: rest =>
     if ('1' ≤ c && c ≤ '2') && d.isDigit then [(digitVal c * 10 + digitVal d, rest)] else []
   | _ => []) ++
  (match cs with
   | '0' :: c :: rest => if '1' ≤ c && c ≤ '9' then [(digitVal c, rest)] else []
   | _ => []) ++
  (match cs with
   | c :: rest => if '1' ≤ c && c ≤ '9' then [(digitVal c, rest)] else []
   | _ => [])

/-- First day candidate that consumes the rest of the input. -/
def dayFull (cands : List (Nat × List Char)) : Option Nat :=
  match cands with
  | [] => none
  | (d, rest) :: more => if rest.isEmpty then some d else dayFull more

/-- Backtracking over month candidates: the first month whose day
match consumes the whole remaining input. -/
def mdSearch (cands : List (Nat × List Char)) : Option (Nat × Nat) :=
  match cands with
  | [] => none
  | (m, rest) :: more =>
    match dayFull (dayCands rest) with
    | some d => some (m, d)
    | none => mdSearch more

/-- Gregorian leap-year rule, as used by `datetime`. -/
def isLeap (y : Nat) : Bool :=
  (y % 4 == 0 && y % 100 != 0) || y % 400 == 0

/-- Days in a month, as validated by the `datetime` constructor. -/
def daysInMonth (y m : Nat) : Nat :=
  if m = 2 then (if isLeap y then 29 else 28)
  else if m = 4 ∨ m = 6 ∨ m = 9 ∨ m = 11 then 30
  else 31

/-- `datetime.strptime(s, '%Y%m%d')`: `some (y, m, d)` on success,
`none` when a `ValueError` is raised (regex mismatch, leftover input,
or an invalid calendar date, including year 0). -/
def parseYmd (s : String) : Option (Nat × Nat × Nat) :=
  match yearCand s.data with
  | none => none
  | some (y, rest) =>
    match mdSearch (monthCands rest) with
    | none => none
    | some (m, d) =>
      if 1 ≤ y ∧ d ≤ daysInMonth y m then some (y, m, d) else none

/-- `n` rendered in decimal, zero-padded on the left to width `w`.
`date_obj.strftime('%Y-%m-%d')` zero-pads `%m` and `%d` to 2; `%Y` is
zero-padded to 4 here (glibc prints years below 1000 unpadded — a
platform-dependent corner never reached by a 4-digit-year input). -/
def padZ (w n : Nat) : String :=
  let s := Nat.repr n
  if s.data.length < w then String.mk (List.replicate (w - s.data.length) '0' ++ s.data) else s

/-- `date_obj.strftime('%Y-%m-%d')`. -/
def strftimeDate (y m d : Nat) : String :=
  padZ 4 y ++ "-" ++ padZ 2 m ++ "-" ++ padZ 2 d

/-! ### Data model

`Info` is the SourceRecord: the yt-dlp metadata dictionary restricted
to the keys the mapper reads, each either absent (`none`) or holding a
well-typed value.  `Metadata` is the mapper's output dictionary
(NormalizedTags): an `Option` field is a key that may be absent; the
`year` field is doubly optional because the code can store the Python
value `None` under a present key (`metadata['year'] = None`).
-/

/-- One entry of `info['thumbnails']`: a dict read with
`.get('url')`, `.get('width', 0)`, `.get('height', 0)`. -/
structure ThumbEntry where
  url : Option String := none
  width : Option Int := none
  height : Option Int := none

/-- The SourceRecord (`info`), with well-typed fields. -/
structure Info where
  title : Option String := none
  uploader : Option String := none
  playlist_title : Option String := none
  upload_date : Option String := none
  categories : Option (List String) := none
  tags : Option (List String) := none
  playlist_index : Option Int := none
  duration : Option ℚ := none
  description : Option String := none
  view_count : Option Int := none
  like_count : Option Int := none
  thumbnail : Option String := none
  thumbnails : Option (List ThumbEntry) := none
  webpage_url : Option String := none

/-- The NormalizedTags dictionary built by the mapper. -/
structure Metadata where
  title : String
  artist : String
  album : String
  albumartist : String
  date : Option String := none
  year : Option (Option String) := none
  genre : String
  tracknumber : Option String := none
  length : Option String := none
  comment : Option String := none
  composer : String
  thumbnail_url : Option String := none
  webpage_url : String

/-! ### The Tag Schema Mapper (`extract_metadata_from_info`)

Each `let`-block of the Python function becomes a named helper, so the
claims can be settled on small functions; `extract_metadata_from_info`
assembles them exactly as the source does.
-/

/-- Python `a or b` for an optional string `a` and string `b`:
`a` unless it is absent or empty. -/
def pyOr (o : Option String) (fb : String) : String :=
  match o with
  | some s => if s = "" then fb else s
  | none => fb

/-- Lines 413-422: the date block.  `if upload_date:` skips absent and
empty values; `strptime` success yields `strftime('%Y-%m-%d')` and
`str(date_obj.year)`; on `ValueError` the raw string is kept and
`year` is its first 4 characters when it has at least 4, else the
Python value `None`. -/
def dateYear : Option String → Option String × Option (Option String)
  | none => (none, none)
  | some ud =>
    if ud = "" then (none, none)
    else
      match parseYmd ud with
      | some (y, m, d) => (some (strftimeDate y m d), some (some (Nat.repr y)))
      | none => (some ud, some (if 4 ≤ ud.data.length then some (pySlice ud 4) else none))

/-- The fixed keyword set of line 433. -/
def musicKeywords : List String :=
  ["music", "song", "pop", "rock", "hip hop", "electronic", "jazz", "classical"]

/-- Line 432's comprehension filter: some keyword occurs in
`tag.lower()`. -/
def isMusicTag (t : String) : Bool :=
  musicKeywords.any (fun k => strContains (lowerStr t) k)

/-- Lines 425-436: genre from categories or tags. -/
def genreOf (categories tags : List String) : String :=
  match categories with
  | c :: _ => c
  | [] =>
    match tags with
    | [] => "Music"
    | _ :: _ =>
      match tags.filter isMusicTag with
      | g :: _ => g
      | [] => "Music"

/-- Lines 439-441: `if playlist_index: metadata['tracknumber'] =
str(playlist_index)` (0 is falsy). -/
def trackOf : Option Int → Option String
  | none => none
  | some n => if n = 0 then none else some (Int.repr n)

/-- Lines 444-446: `if duration: metadata['length'] =
str(int(duration * 1000))` (0 is falsy). -/
def lengthOf : Option ℚ → Option String
  | none => none
  | some q => if q = 0 then none else some (Int.repr (pyInt (q * 1000)))

/-- Lines 458-465: the `additional_info` list, views first, zero and
absent counts skipped. -/
def statsList (view_count like_count : Option Int) : List String :=
  (match view_count with
   | some v => if v = 0 then [] else ["Views: " ++ commaFmt v]
   | none => []) ++
  (match like_count with
   | some l => if l = 0 then [] else ["Likes: " ++ commaFmt l]
   | none => [])

/-- Lines 449-452: `metadata['comment']` before the stats block — a
non-empty description truncated to 3000 characters (key unset when
the description is absent or empty). -/
def commentPre (description : String) : Option String :=
  if description = "" then none
  else some (if 3000 < description.data.length then pySlice description 3000 else description)

/-- Lines 449-472: the final comment.  When `additional_info` is
non-empty the stats block is appended to a truthy existing comment
after `\n\n` (`if metadata.get('comment'):`), or stored alone. -/
def commentOf (description : String) (view_count like_count : Option Int) : Option String :=
  match statsList view_count like_count with
  | [] => commentPre description
  | s :: rest =>
    let stats := sepJoin " | " (s :: rest)
    match commentPre description with
    | some c => if c = "" then some ("[Stats: " ++ stats ++ "]")
                else some (c ++ "\n\n[Stats: " ++ stats ++ "]")
    | none => some ("[Stats: " ++ stats ++ "]")

/-- `x.get('height', 0) * x.get('width', 0)`, the key of line 481. -/
def thumbKey (t : ThumbEntry) : Int :=
  t.height.getD 0 * t.width.getD 0

/-- Python `max(.., key=thumbKey)` over a non-empty list: the first
element attaining the maximum. -/
def pyMax (best : ThumbEntry) : List ThumbEntry → ThumbEntry
  | [] => best
  | x :: xs => if thumbKey best < thumbKey x then pyMax x xs else pyMax best xs

/-- Lines 475-484: `thumbnail` if truthy, else the highest
`height*width` entry's `.get('url')`, else the original (possibly
absent or empty) value. -/
def thumbOf (thumbnail : Option String) (thumbnails : List ThumbEntry) : Option String :=
  let truthy : Bool := match thumbnail with
    | some s => s != ""
    | none => false
  if truthy then thumbnail
  else
    match thumbnails with
    | [] => thumbnail
    | x :: xs => (pyMax x xs).url

/-- Lines 394-489: the Tag Schema Mapper `extract_metadata_from_info`. -/
def extract_metadata_from_info (info : Info) : Metadata :=
  let artist := info.uploader.getD "Unknown Artist"
  let dy := dateYear info.upload_date
  { title := info.title.getD "Unknown Title"
    artist := artist
    album := pyOr info.playlist_title (artist ++ " - YouTube")
    albumartist := artist
    date := dy.1
    year := dy.2
    genre := genreOf ((info.categories).getD []) ((info.tags).getD [])
    tracknumber := trackOf info.playlist_index
    length := lengthOf info.duration
    comment := commentOf (info.description.getD "") info.view_count info.like_count
    composer := info.uploader.getD ""
    thumbnail_url := thumbOf info.thumbnail ((info.thumbnails).getD [])
    webpage_url := (info.webpage_url).getD "" }

/-! ### The Thumbnail Fetcher's content-type resolution

Lines 512-521 of `download_thumbnail`: the extension chosen for the
downloaded image from the response's `content-type` header and the
thumbnail URL.
-/

/-- Lines 513-521: the if/elif/else chain choosing the extension. -/
def thumbExt (content_type thumbnail_url : String) : String :=
  if strContains content_type "image/jpeg"
      || strEndsWith thumbnail_url ".jpg" || strEndsWith thumbnail_url ".jpeg" then ".jpg"
  else if strContains content_type "image/png" || strEndsWith thumbnail_url ".png" then ".png"
  else if strContains content_type "image/webp" || strEndsWith thumbnail_url ".webp" then ".webp"
  else ".jpg"

/-- Modelled from the spec: resolution that consults only the declared
content-type header, in the order JPEG, PNG, WEBP, defaulting to JPEG
— the behaviour the claim attributes to the header-first step. -/
def headerOnlyExt (content_type : String) : String :=
  if strContains content_type "image/jpeg" then ".jpg"
  else if strContains content_type "image/png" then ".png"
  else if strContains content_type "image/webp" then ".webp"
  else ".jpg"

/-! ### The Tag Writer (`apply_metadata_to_mp3`)

The ID3 container is a list of frames; the file is `Mp3File` (a file
with no container has `tags = none`).  The fallible external steps are
oracles: `openOk` is whether `MP3(mp3_path, ID3=ID3)` succeeds,
`saveOk` whether `audio.save()` succeeds, and the thumbnail argument
carries the result of opening and reading the image file (the code
wraps that read in its own try/except and continues on failure).  The
whole body is wrapped in `try/except` returning `False`, so the
embedding is a total function returning the success flag and the
resulting on-disk file.
-/

/-- One ID3 frame, as built by lines 563-609. -/
inductive Frame
  | TIT2 (text : String)
  | TPE1 (text : String)
  | TALB (text : String)
  | TPE2 (text : String)
  | TDRC (text : String)
  | TCON (text : String)
  | TRCK (text : String)
  | COMM (lang desc text : String)
  | APIC (mime : String) (typ : Nat) (desc : String) (dat : List Nat)
deriving DecidableEq

/-- An MP3 file's tag container (`none`: no ID3 container present). -/
structure Mp3File where
  tags : Option (List Frame) := none
deriving DecidableEq

/-- An optional string field is written only when present and truthy
(`if metadata.get(k):`). -/
def optFrame (o : Option String) (f : String → Frame) : List Frame :=
  match o with
  | some s => if s = "" then [] else [f s]
  | none => []

/-- Lines 595-600: MIME type from the thumbnail path's suffix,
defaulting to JPEG. -/
def mimeOfPath (path : String) : String :=
  if strEndsWith (lowerStr path) ".png" then "image/png"
  else if strEndsWith (lowerStr path) ".webp" then "image/webp"
  else "image/jpeg"

/-- Lines 563-586: the text frames added for the populated metadata
fields, in source order (the `year` key never produces a frame). -/
def textFrames (md : Metadata) : List Frame :=
  optFrame (some md.title) Frame.TIT2 ++
  optFrame (some md.artist) Frame.TPE1 ++
  optFrame (some md.album) Frame.TALB ++
  optFrame (some md.albumartist) Frame.TPE2 ++
  optFrame md.date Frame.TDRC ++
  optFrame (some md.genre) Frame.TCON ++
  optFrame md.tracknumber Frame.TRCK ++
  optFrame md.comment (Frame.COMM "eng" "")

/-- Lines 537-629: the Tag Writer `apply_metadata_to_mp3`.  Returns
the Python result (`True`/`False`) and the on-disk file afterwards:
on open failure nothing was touched; the in-memory mutation (create
container if missing, `clear()`, re-add frames, optionally embed the
cover) reaches disk only if `audio.save()` completes. -/
def apply_metadata_to_mp3 (disk : Mp3File) (openOk : Bool) (md : Metadata)
    (thumb : Option (String × Except String (List Nat))) (saveOk : Bool) :
    Bool × Mp3File :=
  if openOk then
    let tags0 : List Frame := (disk.tags).getD []
    let cleared : List Frame := tags0.take 0
    let withText := cleared ++ textFrames md
    let withArt :=
      match thumb with
      | none => withText
      | some (_, .error _) => withText
      | some (path, .ok bytes) => withText ++ [Frame.APIC (mimeOfPath path) 3 "Cover" bytes]
    if saveOk then (true, { tags := some withArt }) else (false, disk)
  else (false, disk)

/-! ### Dynamic model of the date block

The mapper's claim of totality quantifies over malformed records as
well, so the date block (lines 413-422) is also embedded over
dynamically-typed Python values.  `strptime` raises `TypeError` for a
non-string argument, which line 420 catches — but the handler then
evaluates `len(upload_date)`, which raises an uncaught `TypeError`
when the value is an `int` or `float`.  (A list survives: `len` and
`[:4]` are defined on lists.)
-/

/-- A dynamically-typed Python value (the shapes relevant here). -/
inductive PyVal
  | vnone
  | vstr (s : String)
  | vint (n : Int)
  | vfloat (q : ℚ)
  | vlist (xs : List PyVal)

/-- Python truthiness of a value. -/
def pyTruthy : PyVal → Bool
  | .vnone => false
  | .vstr s => s != ""
  | .vint n => n != 0
  | .vfloat q => !(decide (q = 0))
  | .vlist xs => !xs.isEmpty

/-- Lines 413-422 over a dynamically-typed `upload_date` value
(`none`: key absent).  Returns the `date` and `year` entries (`none`:
key left unset) or the uncaught exception. -/
def dateBlockDyn : Option PyVal → Except String (Option PyVal × Option PyVal)
  | none => .ok (none, none)
  | some v =>
    if pyTruthy v then
      match v with
      | .vstr s =>
        (match parseYmd s with
         | some (y, m, d) => .ok (some (.vstr (strftimeDate y m d)), some (.vstr (Nat.repr y)))
         | none => .ok (some (.vstr s),
             some (if 4 ≤ s.data.length then .vstr (pySlice s 4) else .vnone)))
      | .vint _ => .error "TypeError"
      | .vfloat _ => .error "TypeError"
      | .vlist xs => .ok (some (.vlist xs),
          some (if 4 ≤ xs.length then .vlist (xs.take 4) else .vnone))
      | .vnone => .ok (none, none)
    else .ok (none, none)

/-- The SourceRecord with a dynamically-typed upload-date field; all
other fields well-typed (they are not needed to exhibit the failure,
and on this domain only the date block can raise). -/
structure InfoD where
  title : Option String := none
  uploader : Option String := none
  playlist_title : Option String := none
  upload_date : Option PyVal := none
  categories : Option (List String) := none
  tags : Option (List String) := none
  playlist_index : Option Int := none
  duration : Option ℚ := none
  description : Option String := none
  view_count : Option Int := none
  like_count : Option Int := none
  thumbnail : Option String := none
  thumbnails : Option (List ThumbEntry) := none
  webpage_url : Option String := none

/-- The mapper's output over the dynamic domain: `date` and `year`
hold Python values (`year = some .vnone` models
`metadata['year'] = None`). -/
structure MetadataD where
  title : String
  artist : String
  album : String
  albumartist : String
  date : Option PyVal := none
  year : Option PyVal := none
  genre : String
  tracknumber : Option String := none
  length : Option String := none
  comment : Option String := none
  composer : String
  thumbnail_url : Option String := none
  webpage_url : String

/-- `extract_metadata_from_info` over the dynamic domain: identical to
the typed embedding except that the date block runs on the dynamic
value and its uncaught exception aborts the call (the Python function
raises and returns nothing). -/
def extract_metadata_from_info_dyn (info : InfoD) : Except String MetadataD :=
  match dateBlockDyn info.upload_date with
  | .error e => .error e
  | .ok (d, y) =>
    let artist := info.uploader.getD "Unknown Artist"
    .ok { title := info.title.getD "Unknown Title"
          artist := artist
          album := pyOr info.playlist_title (artist ++ " - YouTube")
          albumartist := artist
          date := d
          year := y
          genre := genreOf ((info.categories).getD []) ((info.tags).getD [])
          tracknumber := trackOf info.playlist_index
          length := lengthOf info.duration
          comment := commentOf (info.description.getD "") info.view_count info.like_count
          composer := info.uploader.getD ""
          thumbnail_url := thumbOf info.thumbnail ((info.thumbnails).getD [])
          webpage_url := (info.webpage_url).getD "" }

/-! ### Helper lemmas -/

/-- Appending strings appends their character lists. -/
theorem dataAppend (s t : String) : (s ++ t).data = s.data ++ t.data := by
  cases s
  cases t
  rfl

/-- A string is non-empty iff its character list is. -/
theorem str_ne_empty_iff (s : String) : s ≠ "" ↔ s.data ≠ [] := by
  constructor
  · intro h hd
    exact h (String.ext (by rw [hd]))
  · intro h hs
    exact h (by rw [hs])

/-- Anything with `" - YouTube"` appended is a non-empty string. -/
theorem append_youtube_ne_empty (a : String) : a ++ " - YouTube" ≠ "" := by
  rw [str_ne_empty_iff, dataAppend]
  intro h
  rcases List.append_eq_nil.mp h with ⟨-, h2⟩
  exact absurd h2 (by decide)

/-- The head-or-default of a filtered list is its first match. -/
theorem headD_filter {α : Type} (p : α → Bool) (dflt : α) (l : List α) :
    (l.filter p).headD dflt = (l.find? p).getD dflt := by
  induction l with
  | nil => rfl
  | cons a l ih =>
    by_cases h : p a
    · simp [List.filter_cons, List.find?_cons, h]
    · simp [List.filter_cons, List.find?_cons, h, ih]

/-- With no categories, the genre is the head of the filtered tag
list, defaulting to "Music". -/
theorem genreOf_nil (l : List String) :
    genreOf [] l = (l.filter isMusicTag).headD "Music" := by
  cases l with
  | nil => rfl
  | cons t ts =>
    show (match (t :: ts).filter isMusicTag with | g :: _ => g | [] => "Music") = _
    cases hf : (t :: ts).filter isMusicTag with
    | nil => rfl
    | cons g gs => rfl

/-- The comment truncation of a non-empty description is non-empty. -/
theorem trunc_ne_empty {d : String} (hne : d ≠ "") :
    (if 3000 < d.data.length then pySlice d 3000 else d) ≠ "" := by
  by_cases h : 3000 < d.data.length
  · rw [if_pos h, str_ne_empty_iff]
    show d.data.take 3000 ≠ []
    intro h0
    rcases List.take_eq_nil_iff.mp h0 with h1 | h1
    · exact absurd h1 (by decide)
    · exact (str_ne_empty_iff d).mp hne h1
  · rw [if_neg h]
    exact hne

/-! ### Claim C1 — duration_ms -/

/-- Claim C1, as stated, is false: the code computes
`str(int(duration * 1000))`, truncation toward zero, not
`round(duration * 1000)`.  For a duration of 1/1024 seconds (exactly
representable in binary floating point; the float product is the exact
0.9765625) the code yields `"0"` while the claimed rounding yields
`"1"`. -/
theorem c1_duration_round_counterexample :
    (extract_metadata_from_info { duration := some (1 / 1024) }).length = some "0" ∧
    Int.repr (roundSpec ((1 / 1024 : ℚ) * 1000)) = "1" ∧
    (extract_metadata_from_info { duration := some (1 / 1024) }).length
      ≠ some (Int.repr (roundSpec ((1 / 1024 : ℚ) * 1000))) := by
  have he : ((1 : ℚ) / 1024) * 1000 = 125 / 128 := by norm_num
  have hint : pyInt ((1 / 1024 : ℚ) * 1000) = 0 := by
    rw [he]
    unfold pyInt
    rw [if_pos (by norm_num)]
    norm_num
  have hround : roundSpec ((1 / 1024 : ℚ) * 1000) = 1 := by
    rw [he]
    unfold roundSpec
    norm_num
  have hlen : (extract_metadata_from_info { duration := some (1 / 1024) }).length = some "0" := by
    show lengthOf (some (1 / 1024)) = some "0"
    simp only [lengthOf]
    rw [if_neg (by norm_num : ¬((1 / 1024 : ℚ) = 0)), hint]
    rfl
  refine ⟨hlen, ?_, ?_⟩
  · rw [hround]
    rfl
  · rw [hlen, hround]
    decide

/-- Claim C1 (corrected): `duration_ms` is set only when a non-zero
duration is present, and its value is `str(int(duration * 1000))` —
the milliseconds truncated toward zero, not rounded; an absent
duration leaves the field unset. -/
theorem c1_duration_ms_truncated (info : Info) :
    (∀ q : ℚ, info.duration = some q → q ≠ 0 →
      (extract_metadata_from_info info).length = some (Int.repr (pyInt (q * 1000)))) ∧
    (info.duration = none → (extract_metadata_from_info info).length = none) := by
  constructor
  · intro q hq hne
    show lengthOf info.duration = _
    rw [hq]
    simp only [lengthOf]
    rw [if_neg hne]
  · intro h
    show lengthOf info.duration = none
    rw [h]
    rfl

/-- Claim C1 witness: the spec's end-to-end record with duration 125.4
gets `duration_ms = "125400"`. -/
theorem c1_duration_ms_witness :
    (extract_metadata_from_info { duration := some (1254 / 10) }).length = some "125400" := by
  have h := (c1_duration_ms_truncated { duration := some (1254 / 10) }).1
    (1254 / 10) rfl (by norm_num)
  rw [h]
  have he : (1254 / 10 : ℚ) * 1000 = 125400 := by norm_num
  have hint : pyInt ((1254 / 10 : ℚ) * 1000) = 125400 := by
    rw [he]
    unfold pyInt
    rw [if_pos (by norm_num)]
    norm_num
  rw [hint]
  rfl

/-! ### Claim C8 — the Writer's result -/

/-- Claim C8 (confirmed): the Writer is a total function of its
oracles (the body is wrapped in `try/except`, so no exception reaches
the caller), it returns `False` on any failure to open or persist, and
`True` exactly when the file was opened and `audio.save()` completed. -/
theorem c8_writer_returns_iff_persisted (disk : Mp3File) (openOk : Bool) (md : Metadata)
    (thumb : Option (String × Except String (List Nat))) (saveOk : Bool) :
    (apply_metadata_to_mp3 disk openOk md thumb saveOk).1 = (openOk && saveOk) := by
  cases openOk with
  | false => rfl
  | true => cases saveOk with
    | false => rfl
    | true => rfl

/-! ### Claim C9 — Writer idempotence -/

/-- Claim C9 (confirmed): because `audio.tags.clear()` runs before any
frame is written, a successful write's final tag container does not
depend on the previous file state, so writing twice with the same
arguments equals writing once. -/
theorem c9_writer_idempotent (d1 d2 : Mp3File) (md : Metadata)
    (thumb : Option (String × Except String (List Nat))) :
    apply_metadata_to_mp3 (apply_metadata_to_mp3 d1 true md thumb true).2 true md thumb true
      = apply_metadata_to_mp3 d1 true md thumb true ∧
    (apply_metadata_to_mp3 d1 true md thumb true).2
      = (apply_metadata_to_mp3 d2 true md thumb true).2 :=
  ⟨rfl, rfl⟩

/-! ### Claim C10 — zero numeric fields are treated as absent -/

/-- Claim C10 (confirmed): `if duration:`, `if playlist_index:`,
`if view_count:` and `if like_count:` treat 0 as false, so a zero
duration produces no `duration_ms`, a zero playlist index no
`track_number`, and zero counts contribute nothing to the stats
block. -/
theorem c10_zero_numeric_treated_absent (info : Info) :
    (info.duration = some 0 → (extract_metadata_from_info info).length = none) ∧
    (info.playlist_index = some 0 → (extract_metadata_from_info info).tracknumber = none) ∧
    (info.view_count = some 0 →
      (extract_metadata_from_info info).comment
        = (extract_metadata_from_info { info with view_count := none }).comment) ∧
    (info.like_count = some 0 →
      (extract_metadata_from_info info).comment
        = (extract_metadata_from_info { info with like_count := none }).comment) := by
  refine ⟨?_, ?_, ?_, ?_⟩
  · intro h
    show lengthOf info.duration = none
    rw [h]
    simp [lengthOf]
  · intro h
    show trackOf info.playlist_index = none
    rw [h]
    simp [trackOf]
  · intro h
    show commentOf (info.description.getD "") info.view_count info.like_count
      = commentOf (info.description.getD "") none info.like_count
    rw [h]
    simp [commentOf, statsList]
  · intro h
    show commentOf (info.description.getD "") info.view_count info.like_count
      = commentOf (info.description.getD "") info.view_count none
    rw [h]
    simp [commentOf, statsList]

/-- Claim C10 witness: a record with duration 0, playlist index 0 and
view count 0. -/
theorem c10_zero_numeric_witness :
    (extract_metadata_from_info
        { duration := some 0, playlist_index := some 0, view_count := some 0 }).length = none ∧
    (extract_metadata_from_info
        { duration := some 0, playlist_index := some 0, view_count := some 0 }).tracknumber
      = none ∧
    (extract_metadata_from_info
        { duration := some 0, playlist_index := some 0, view_count := some 0 }).comment
      = (extract_metadata_from_info
          { ({ duration := some 0, playlist_index := some 0, view_count := some 0 } : Info)
              with view_count := none }).comment := by
  have h := c10_zero_numeric_treated_absent
    { duration := some 0, playlist_index := some 0, view_count := some 0 }
  exact ⟨h.1 rfl, h.2.1 rfl, h.2.2.1 rfl⟩

/-! ### Claim C2 — required-for-display fields -/

/-- Genre is non-empty provided a supplied first category is. -/
theorem genreOf_ne_empty (cats tags : List String)
    (hc : ∀ c cs, cats = c :: cs → c ≠ "") : genreOf cats tags ≠ "" := by
  cases cats with
  | cons c cs => exact hc c cs rfl
  | nil =>
    cases tags with
    | nil => decide
    | cons t ts =>
      show (match (t :: ts).filter isMusicTag with | g :: _ => g | [] => "Music") ≠ ""
      cases hf : (t :: ts).filter isMusicTag with
      | nil => decide
      | cons g gs =>
        have hg : isMusicTag g = true := by
          have hmem : g ∈ (t :: ts).filter isMusicTag := by
            rw [hf]
            exact List.mem_cons_self g gs
          exact (List.mem_filter.mp hmem).2
        intro h0
        have h0g : g = "" := h0
        rw [h0g] at hg
        exact absurd hg (by decide)

/-- Claim C2, as stated, is false: the fallbacks apply only when a key
is absent; a present-but-empty title is propagated verbatim, so a
required-for-display field can be empty. -/
theorem c2_empty_title_counterexample :
    (extract_metadata_from_info { title := some "" }).title = "" := rfl

/-- Claim C2 (corrected): title, artist, album, album_artist and genre
are always populated, with the fallbacks "Unknown Title",
"Unknown Artist", `artist ++ " - YouTube"` and "Music" used when the
source key is absent — and they are non-empty provided the source does
not itself supply an empty string for the title, the uploader, or the
first category (the `.get(key, default)` fallbacks do not engage on
present-but-empty values). -/
theorem c2_required_display_fields (info : Info)
    (ht : info.title ≠ some "") (hu : info.uploader ≠ some "")
    (hc : ∀ c cs, (info.categories).getD [] = c :: cs → c ≠ "") :
    (extract_metadata_from_info info).title ≠ "" ∧
    (extract_metadata_from_info info).artist ≠ "" ∧
    (extract_metadata_from_info info).album ≠ "" ∧
    (extract_metadata_from_info info).albumartist ≠ "" ∧
    (extract_metadata_from_info info).genre ≠ "" := by
  have hart : info.uploader.getD "Unknown Artist" ≠ "" := by
    cases h : info.uploader with
    | none => decide
    | some s =>
      show s ≠ ""
      intro hs
      exact hu (by rw [h, hs])
  refine ⟨?_, hart, ?_, hart, ?_⟩
  · show info.title.getD "Unknown Title" ≠ ""
    cases h : info.title with
    | none => decide
    | some s =>
      show s ≠ ""
      intro hs
      exact ht (by rw [h, hs])
  · show pyOr info.playlist_title (info.uploader.getD "Unknown Artist" ++ " - YouTube") ≠ ""
    cases info.playlist_title with
    | none => exact append_youtube_ne_empty _
    | some s =>
      by_cases hs : s = ""
      · have he : pyOr (some s) (info.uploader.getD "Unknown Artist" ++ " - YouTube")
            = info.uploader.getD "Unknown Artist" ++ " - YouTube" := by
          simp [pyOr, hs]
        rw [he]
        exact append_youtube_ne_empty _
      · have he : pyOr (some s) (info.uploader.getD "Unknown Artist" ++ " - YouTube") = s := by
          simp [pyOr, hs]
        rw [he]
        exact hs
  · exact genreOf_ne_empty _ _ hc

/-- Claim C2 witness: the empty source record gets the placeholder
values, all non-empty. -/
theorem c2_required_display_fields_witness :
    (extract_metadata_from_info {}).title ≠ "" ∧
    (extract_metadata_from_info {}).artist ≠ "" ∧
    (extract_metadata_from_info {}).album ≠ "" ∧
    (extract_metadata_from_info {}).albumartist ≠ "" ∧
    (extract_metadata_from_info {}).genre ≠ "" := by
  exact c2_required_display_fields {} (by decide) (by decide)
    (by intro c cs h; simp at h)

/-! ### Claim C3 — date and year -/

/-- Claim C3, as stated, is false: `strptime('%Y%m%d')` does not fail
on every wrong-length string — the 6-character `"202011"` parses as
2020-01-01 (the month and day patterns match single digits), so the
failure branch that the claim predicts (`date` = raw string) is not
taken. -/
theorem c3_wrong_length_parses_counterexample :
    (extract_metadata_from_info { upload_date := some "202011" }).date = some "2020-01-01" ∧
    (extract_metadata_from_info { upload_date := some "202011" }).date ≠ some "202011" := by
  decide

/-- Claim C3 (corrected): with `parseYmd` the embedded
`strptime(·, '%Y%m%d')` — which accepts every 8-digit string denoting
a valid calendar date but also some 5-to-7-digit strings — a parse
success yields `date = 'YYYY-MM-DD'` and `year = str(y)`; a parse
failure of a present, non-empty string leaves `date` the raw string
and `year` its first 4 characters when it has at least 4, else the
value `None`; an absent or empty upload date leaves both keys unset. -/
theorem c3_date_year_derivation (info : Info) :
    (info.upload_date = none →
      (extract_metadata_from_info info).date = none ∧
      (extract_metadata_from_info info).year = none) ∧
    (∀ s, info.upload_date = some s → s ≠ "" →
      (∀ y m d, parseYmd s = some (y, m, d) →
        (extract_metadata_from_info info).date = some (strftimeDate y m d) ∧
        (extract_metadata_from_info info).year = some (some (Nat.repr y))) ∧
      (parseYmd s = none →
        (extract_metadata_from_info info).date = some s ∧
        (extract_metadata_from_info info).year
          = some (if 4 ≤ s.data.length then some (pySlice s 4) else none))) ∧
    (info.upload_date = some "" →
      (extract_metadata_from_info info).date = none ∧
      (extract_metadata_from_info info).year = none) := by
  refine ⟨?_, ?_, ?_⟩
  · intro h
    constructor
    · show (dateYear info.upload_date).1 = none
      rw [h]
      rfl
    · show (dateYear info.upload_date).2 = none
      rw [h]
      rfl
  · intro s hs hne
    constructor
    · intro y m d hp
      constructor
      · show (dateYear info.upload_date).1 = _
        rw [hs]
        simp [dateYear, hne, hp]
      · show (dateYear info.upload_date).2 = _
        rw [hs]
        simp [dateYear, hne, hp]
    · intro hp
      constructor
      · show (dateYear info.upload_date).1 = _
        rw [hs]
        simp [dateYear, hne, hp]
      · show (dateYear info.upload_date).2 = _
        rw [hs]
        simp [dateYear, hne, hp]
  · intro h
    constructor
    · show (dateYear info.upload_date).1 = none
      rw [h]
      simp [dateYear]
    · show (dateYear info.upload_date).2 = none
      rw [h]
      simp [dateYear]

/-- Claim C3 witness: the spec's example `"20230615"`. -/
theorem c3_date_year_witness :
    (extract_metadata_from_info { upload_date := some "20230615" }).date = some "2023-06-15" ∧
    (extract_metadata_from_info { upload_date := some "20230615" }).year
      = some (some "2023") := by
  have h := ((c3_date_year_derivation { upload_date := some "20230615" }).2.1 "20230615" rfl
    (by decide)).1 2023 6 15 (by decide)
  exact ⟨h.1.trans (by decide), h.2.trans (by decide)⟩

/-! ### Claim C4 — comment truncation and stats -/

/-- Claim C4, as stated, is false: a record *containing* a description
field whose value is the empty string gets no comment key at all
(`if description:` is false), not a comment equal to the (empty)
truncation. -/
theorem c4_empty_description_counterexample :
    (extract_metadata_from_info { description := some "" }).comment = none ∧
    (extract_metadata_from_info { description := some "" }).comment ≠ some "" := by
  decide

/-- Claim C4 (corrected): for every record with a *non-empty*
description, the comment is the description truncated to its first
3000 characters, and when a non-zero view count or like count is
present the block `\n\n[Stats: Views: N | Likes: N]` (comma-grouped)
is appended to it, even past 3000 characters; an empty or absent
description yields no pre-stats comment (the stats block, if any,
stands alone). -/
theorem c4_comment_truncation_stats (info : Info) (d : String)
    (hd : info.description = some d) (hne : d ≠ "") :
    (extract_metadata_from_info info).comment
      = some (match statsList info.view_count info.like_count with
          | [] => if 3000 < d.data.length then pySlice d 3000 else d
          | s :: rest => (if 3000 < d.data.length then pySlice d 3000 else d)
              ++ "\n\n[Stats: " ++ sepJoin " | " (s :: rest) ++ "]") := by
  have hpre : commentPre d
      = some (if 3000 < d.data.length then pySlice d 3000 else d) := by
    unfold commentPre
    rw [if_neg hne]
  show commentOf (info.description.getD "") info.view_count info.like_count = _
  rw [hd]
  show commentOf d info.view_count info.like_count = _
  cases hst : statsList info.view_count info.like_count with
  | nil =>
    simp only [commentOf, hst, hpre]
  | cons s rest =>
    simp only [commentOf, hst, hpre]
    rw [if_neg (trunc_ne_empty hne)]

/-- Claim C4 witness: a 5000-character description is truncated to a
pre-stats comment of exactly 3000 characters. -/
theorem c4_comment_truncation_witness :
    (extract_metadata_from_info
        { description := some (String.mk (List.replicate 5000 'a')) }).comment
      = some (pySlice (String.mk (List.replicate 5000 'a')) 3000) ∧
    (pySlice (String.mk (List.replicate 5000 'a')) 3000).data.length = 3000 := by
  have hne : String.mk (List.replicate 5000 'a') ≠ "" := by
    rw [str_ne_empty_iff]
    intro h0
    have hlen0 := congrArg List.length h0
    rw [List.length_replicate, List.length_nil] at hlen0
    exact absurd hlen0 (by decide)
  have hlt : 3000 < (String.mk (List.replicate 5000 'a')).data.length := by
    show 3000 < (List.replicate 5000 'a').length
    rw [List.length_replicate]
    decide
  have h := c4_comment_truncation_stats
    { description := some (String.mk (List.replicate 5000 'a')) }
    (String.mk (List.replicate 5000 'a')) rfl hne
  have h3 : (match statsList (none : Option Int) (none : Option Int) with
      | [] => if 3000 < (String.mk (List.replicate 5000 'a')).data.length
          then pySlice (String.mk (List.replicate 5000 'a')) 3000
          else String.mk (List.replicate 5000 'a')
      | s :: rest => (if 3000 < (String.mk (List.replicate 5000 'a')).data.length
          then pySlice (String.mk (List.replicate 5000 'a')) 3000
          else String.mk (List.replicate 5000 'a'))
          ++ "\n\n[Stats: " ++ sepJoin " | " (s :: rest) ++ "]")
      = if 3000 < (String.mk (List.replicate 5000 'a')).data.length
          then pySlice (String.mk (List.replicate 5000 'a')) 3000
          else String.mk (List.replicate 5000 'a') := rfl
  refine ⟨?_, ?_⟩
  · exact (h.trans (congrArg some h3)).trans (congrArg some (if_pos hlt))
  · show ((List.replicate 5000 'a').take 3000).length = 3000
    rw [List.length_take, List.length_replicate]
    decide

/-! ### Claim C5 — genre selection -/

/-- Claim C5 (confirmed): a supplied non-empty category list fixes the
genre to its first entry verbatim; otherwise the genre is the first
tag whose lowercase form contains one of the fixed music keywords,
falling back to "Music" when no tag matches or no tags exist. -/
theorem c5_genre_selection (info : Info) :
    (∀ c cs, (info.categories).getD [] = c :: cs →
      (extract_metadata_from_info info).genre = c) ∧
    ((info.categories).getD [] = [] →
      (extract_metadata_from_info info).genre
        = (((info.tags).getD []).find? isMusicTag).getD "Music") := by
  constructor
  · intro c cs h
    show genreOf ((info.categories).getD []) ((info.tags).getD []) = c
    rw [h]
    rfl
  · intro h
    show genreOf ((info.categories).getD []) ((info.tags).getD []) = _
    rw [h, genreOf_nil, headD_filter]

/-- Claim C5 witness: the spec's two examples — categories
`["Comedy"]` beat music-keyword tags, and tags
`["funny", "rock anthem"]` select `"rock anthem"`. -/
theorem c5_genre_selection_witness :
    (extract_metadata_from_info
        { categories := some ["Comedy"], tags := some ["music video"] }).genre = "Comedy" ∧
    (extract_metadata_from_info { tags := some ["funny", "rock anthem"] }).genre
      = "rock anthem" := by
  constructor
  · exact (c5_genre_selection
      { categories := some ["Comedy"], tags := some ["music video"] }).1 "Comedy" [] rfl
  · have h := (c5_genre_selection { tags := some ["funny", "rock anthem"] }).2 rfl
    rw [h]
    decide

/-! ### Claim C6 — content-type resolution -/

/-- Claim C6, as stated, is false: the code checks, per image type in
the order JPEG, PNG, WEBP, the disjunction "header contains the type
OR the URL carries its suffix", so a `.jpg` URL suffix overrides a
declared `image/png` header; the header is not consulted first. -/
theorem c6_resolution_order_counterexample :
    thumbExt "image/png" "http://h/a.jpg" = ".jpg" ∧
    thumbExt "image/png" "http://h/a.jpg" ≠ headerOnlyExt "image/png" := by
  decide

/-- Claim C6 (corrected): the extension is resolved per type in the
order JPEG, PNG, WEBP, accepting a type when the header contains it
*or* the URL ends with a matching suffix, with JPEG the default;
consequently, whenever the URL carries no recognized image suffix,
the declared content-type header alone determines the result. -/
theorem c6_header_decides_without_suffix (ct url : String)
    (h1 : strEndsWith url ".jpg" = false) (h2 : strEndsWith url ".jpeg" = false)
    (h3 : strEndsWith url ".png" = false) (h4 : strEndsWith url ".webp" = false) :
    thumbExt ct url = headerOnlyExt ct := by
  unfold thumbExt headerOnlyExt
  rw [h1, h2, h3, h4]
  simp

/-- Claim C6 witness: a declared PNG header with a suffix-free URL
resolves to `.png`. -/
theorem c6_header_decides_witness :
    thumbExt "image/png" "http://h/art" = ".png" := by
  have h := c6_header_decides_without_suffix "image/png" "http://h/art"
    (by decide) (by decide) (by decide) (by decide)
  rw [h]
  decide

/-! ### Claim C7 — totality of the mapper -/

/-- The date block never raises on a string-valued (or absent) upload
date. -/
theorem dateBlockDyn_str_ok (s : String) :
    ∃ p, dateBlockDyn (some (.vstr s)) = .ok p := by
  by_cases h : pyTruthy (PyVal.vstr s) = true
  · cases hp : parseYmd s with
    | some t =>
      obtain ⟨y, md⟩ := t
      obtain ⟨m, d⟩ := md
      refine ⟨(some (.vstr (strftimeDate y m d)), some (.vstr (Nat.repr y))), ?_⟩
      simp [dateBlockDyn, h, hp]
    | none =>
      refine ⟨(some (.vstr s),
        some (if 4 ≤ s.data.length then .vstr (pySlice s 4) else .vnone)), ?_⟩
      simp [dateBlockDyn, h, hp]
  · refine ⟨(none, none), ?_⟩
    simp [dateBlockDyn, h]

/-- Claim C7, as stated, is false: the mapper is not total over
malformed records.  For `{'upload_date': 12345678}` (an integer),
`strptime` raises `TypeError`, line 420 catches it, and the handler's
`len(upload_date)` on line 422 raises an uncaught `TypeError` — the
call raises instead of returning a record. -/
theorem c7_mapper_raises_counterexample :
    extract_metadata_from_info_dyn { upload_date := some (.vint 12345678) }
      = .error "TypeError" := rfl

/-- Claim C7 (corrected): the mapper is pure and total — absent fields
degrade to defaults — on every record whose *present* fields are
well-typed (in particular a string upload date); an ill-typed field
such as an integer upload date makes it raise instead. -/
theorem c7_mapper_total_on_well_typed (info : InfoD)
    (h : ∀ v, info.upload_date = some v → ∃ s, v = .vstr s) :
    ∃ md, extract_metadata_from_info_dyn info = .ok md := by
  unfold extract_metadata_from_info_dyn
  cases hud : info.upload_date with
  | none => exact ⟨_, rfl⟩
  | some v =>
    obtain ⟨s, rfl⟩ := h v hud
    obtain ⟨⟨dv, yv⟩, hp⟩ := dateBlockDyn_str_ok s
    rw [hp]
    exact ⟨_, rfl⟩

/-- Claim C7 witness: a well-typed record (string upload date) maps to
a normalized record without raising. -/
theorem c7_mapper_total_witness :
    ∃ md, extract_metadata_from_info_dyn { upload_date := some (.vstr "20200101") }
      = .ok md := by
  apply c7_mapper_total_on_well_typed
  intro v hv
  refine ⟨"20200101", ?_⟩
  injection hv with hv2
  exact hv2.symm
